import Mathlib

/-!
Verification development for the accelerator-connector resolution logic of
`pytorch_lightning/trainer/connectors/accelerator_connector.py`.

The Python module is shallowly embedded: the connector's mutable attributes
become an explicit state record `Conn`, ambient process state (environment
variables, hardware probes, availability flags, the training-type plugin
registry) becomes the record `Env`, exceptions become `Except Err`, and
`rank_zero_warn` calls become an accumulated `List Warning`.

Auxiliary entities that the module imports from elsewhere in the repository
(the `DistributedType` / `DeviceType` / `AMPType` enums, the plugin classes,
the registry, Python's `int` builtin) are modelled where noted; everything
else is translated directly from the source file.
-/

namespace AccelConn

/-- Device kinds, from the `DeviceType` enum (closed set {CPU, GPU, TPU, IPU}). -/
inductive DeviceType
  | CPU | GPU | TPU | IPU
deriving DecidableEq, Repr

/-- Modelled from the spec: the `DistributionKind` closed set (the
`DistributedType` enum lives outside `src/`); each member's string value is
its lowercase name. -/
inductive DistributedType
  | DP | DDP | DDP2 | DDP_SPAWN | DDP_SHARDED | DDP_SHARDED_SPAWN
  | DDP_FULLY_SHARDED | DEEPSPEED | HOROVOD | TPU_SPAWN
deriving DecidableEq, Repr

/-- Modelled from the spec: parsing a backend-name string into a
`DistributionKind` (the enum constructor `DistributedType(value)` used at
line 596 of the source); unknown strings fail. -/
def DistributedType.fromString : String → Option DistributedType
  | "dp" => some .DP
  | "ddp" => some .DDP
  | "ddp2" => some .DDP2
  | "ddp_spawn" => some .DDP_SPAWN
  | "ddp_sharded" => some .DDP_SHARDED
  | "ddp_sharded_spawn" => some .DDP_SHARDED_SPAWN
  | "ddp_fully_sharded" => some .DDP_FULLY_SHARDED
  | "deepspeed" => some .DEEPSPEED
  | "horovod" => some .HOROVOD
  | "tpu_spawn" => some .TPU_SPAWN
  | _ => none

/-- Modelled from the spec (section 4.2.1): the fixed per-kind flag marking the
kinds that are safe to start from an interactive execution context because
they do not relaunch the process out-of-band (the spawn-based kinds and DP). -/
def DistributedType.is_interactive_compatible : DistributedType → Bool
  | .DP | .DDP_SPAWN | .DDP_SHARDED_SPAWN | .TPU_SPAWN => true
  | _ => false

/-- Numeric-precision backend preference, from the `AMPType` enum. -/
inductive AMPType
  | NATIVE | APEX
deriving DecidableEq, Repr

/-- Modelled from the spec: `AMPType.from_str` (enum outside `src/`);
unrecognized values yield `none`. -/
def AMPType.from_str : Option String → Option AMPType
  | some s => if s = "native" then some .NATIVE else if s = "apex" then some .APEX else none
  | none => none

/-- Cluster-environment instances: the four concrete environments selected by
`select_cluster_environment`, plus user-supplied instances distinguished by an id. -/
inductive ClusterEnv
  | SLURM | TorchElastic | Kubeflow | Lightning
  | custom (id : Nat)
deriving DecidableEq, Repr

/-- Torch devices as they appear in `parallel_devices`: `cuda (i)` for
`torch.device("cuda", i)`, `cpu` for `torch.device("cpu")`, and a bare index
for the TPU/IPU branches that build plain integer ranges. -/
inductive Device
  | cuda (i : Nat) | cpu | idx (i : Nat)
deriving DecidableEq, Repr

/-- The training-type plugin classes appearing in the source; user-supplied
strategies of unknown class carry an id. -/
inductive StrategyKind
  | DDP2K | DeepSpeedK | TPUSpawnK | DDPShardedK | DDPSpawnShardedK | DDPK
  | DDPSpawnK | DDPFullyShardedK | DataParallelK | HorovodK | SingleTPUK
  | IPUPluginK | SingleDeviceK | CustomK (id : Nat)
deriving DecidableEq, Repr

/-- A training-type plugin instance.  The back-fill step
(`resolve_training_type_plugin`) probes attributes with `hasattr` and checks
them against `None`, so optionally-present attributes are encoded with an
outer `Option` meaning "the class exposes this attribute" (and, for
`parallel_devices` / `cluster_environment`, an inner `Option` meaning "the
attribute is set").  `num_processes`, `num_nodes` and `sync_batchnorm` always
hold a value when exposed. -/
structure Strategy where
  kind : StrategyKind
  parallel_devices : Option (Option (List Device))
  num_processes : Option Nat
  cluster_environment : Option (Option ClusterEnv)
  num_nodes : Option Nat
  sync_batchnorm : Option Bool
  device : Option Device
deriving DecidableEq, Repr

/-- A fully user-supplied `Accelerator` object passed as `distributed_backend`;
it may carry its own training-type plugin. -/
structure CustomAccel where
  id : Nat
  training_type : Option Strategy
deriving DecidableEq, Repr

/-- The `distributed_backend` attribute: a backend-name string or a custom
accelerator object. -/
inductive BackendValue
  | str (s : String)
  | accel (a : CustomAccel)
deriving DecidableEq, Repr

/-- Precision plugin instances returned by `select_precision_plugin` (and
user-supplied precision hints, distinguished by an id). -/
inductive PrecisionPluginV
  | precision32
  | doublePrecision
  | ipuPrecision (p : Int)
  | deepspeedPrecision (p : Int)
  | tpuHalf
  | nativeMixed
  | shardedNativeMixed
  | fullyShardedNativeMixed
  | apexMixed (level : Option String)
  | customPrecision (id : Nat)
deriving DecidableEq, Repr

/-- A heterogeneous plugin hint, dispatched by `handle_given_plugins` in the
source's `isinstance` order: strings, training-type plugins, precision
plugins, cluster environments, and anything else (invalid). -/
inductive PluginHint
  | str (s : String)
  | training (t : Strategy)
  | precision (p : PrecisionPluginV)
  | clusterEnv (c : ClusterEnv)
  | invalid (id : Nat)
deriving DecidableEq, Repr

/-- The `tpu_cores` attribute after `parse_tpu_cores`: an integer core count
or an explicit core-id list. -/
inductive TpuCores
  | count (n : Nat)
  | ids (l : List Nat)
deriving DecidableEq, Repr

/-- Modelled from the spec: an entry of `TrainingTypePluginsRegistry`
(the registry lives outside `src/`): the `distributed_backend` string stored
for the name, and the plugin the registry instantiates via `.get`. -/
structure RegEntry where
  backend : String
  plugin : Strategy
deriving DecidableEq, Repr

/-- Ambient process state: hardware probes, availability flags and environment
variables read by the connector. -/
structure Env where
  cuda_available : Bool
  cpu_count : Nat
  is_interactive : Bool
  torchelastic : Bool
  kubeflow : Bool
  pl_in_ddp_subprocess : Bool
  native_amp_available : Bool
  apex_available : Bool
  horovod_available : Bool
  ompi_rank_set : Bool
  horovod_rank_set : Bool
  hvd_local_size : Nat
  slurm_ntasks : Option String
  slurm_job_name : Option String
  fake_slurm : Option String
  registry : List (String × RegEntry)
deriving DecidableEq, Repr

/-- The mutable attributes of `AcceleratorConnector`. -/
structure Conn where
  _device_type : DeviceType
  _distrib_type : Option DistributedType
  num_processes : Option Nat
  tpu_cores : Option TpuCores
  ipus : Option Nat
  distributed_backend : Option BackendValue
  parallel_device_ids : Option (List Nat)
  num_nodes : Nat
  sync_batchnorm : Bool
  precision : Int
  amp_type : Option String
  amp_level : Option String
  is_slurm_managing_tasks : Bool
  _precision_plugin : Option PrecisionPluginV
  _training_type_plugin : Option Strategy
  _cluster_environment : Option ClusterEnv
  plugins : List PluginHint
  _training_type_plugin_resolved : Bool
deriving DecidableEq, Repr

/-- Warnings emitted via `rank_zero_warn`. -/
inductive Warning
  | multiGpuNoBackend
  | ddpCpuGpusUnused
  | noGpuDowngrade
  | distributedNoEffect
  | nativeAmpFallbackToApex
  | ignoredPluginsWithCustomAccel
  | gpuAvailableButUnused
deriving DecidableEq, Repr

/-- Exceptions raised by the connector (`MisconfigurationException`,
`ValueError` from the enum constructor, `NotImplementedError`, and the Python
runtime errors the code can trip over). -/
inductive Err
  | multipleTrainingTypeStr (k : StrategyKind) (name : String)
  | multipleTrainingType (k : StrategyKind)
  | multiplePrecision (p : PrecisionPluginV)
  | multipleClusterEnv
  | invalidPlugin (id : Nat)
  | invalidBackendString (s : String)
  | interactiveIncompatible (d : DistributedType)
  | multiNode
  | nativeAmpOnCPU
  | nativeAmpUnavailable
  | apexUnavailable
  | apexShardedIncompatible
  | unsupportedPrecision
  | horovodUnavailable
  | horovodMisconfig
  | unboundLocal
  | pyTypeError
deriving DecidableEq, Repr

/-! ## Character-level string helpers (Python builtins) -/

/-- Whitespace characters stripped by Python's `int` builtin. -/
def isSpaceChar (ch : Char) : Bool :=
  ch = ' ' || ch = '\t' || ch = '\n' || ch = '\r'

/-- Strip leading and trailing whitespace from a character list. -/
def trimChars (l : List Char) : List Char :=
  ((l.dropWhile isSpaceChar).reverse.dropWhile isSpaceChar).reverse

/-- Accumulate a decimal value; fails on a non-digit. -/
def digitsVal : List Char → Nat → Option Nat
  | [], acc => some acc
  | ch :: t, acc =>
    if ch.isDigit then digitsVal t (acc * 10 + (ch.toNat - 48)) else none

/-- Modelled semantics of Python's `int(str)` builtin: optional surrounding
whitespace, an optional sign, then a non-empty digit string; anything else
raises `ValueError` (here: `none`). -/
def pyInt (s : String) : Option Int :=
  match trimChars s.data with
  | '-' :: rest => if rest = [] then none else (digitsVal rest 0).map (fun n => -(n : Int))
  | '+' :: rest => if rest = [] then none else (digitsVal rest 0).map (fun n => (n : Int))
  | rest => if rest = [] then none else (digitsVal rest 0).map (fun n => (n : Int))

/-- Character-list prefix test. -/
def isPrefixChars : List Char → List Char → Bool
  | [], _ => true
  | _ :: _, [] => false
  | a :: as, b :: bs => a = b && isPrefixChars as bs

/-- Substring test (`needle in haystack` for Python strings). -/
def containsSub : List Char → List Char → Bool
  | [], needle => isPrefixChars needle []
  | c :: t, needle => isPrefixChars needle (c :: t) || containsSub t needle

/-! ## Derived boolean properties of the connector -/

/-- `TrainingTypePluginsRegistry` lookup (`name in registry` / `registry[name]`). -/
def registryLookup (env : Env) (s : String) : Option RegEntry :=
  match env.registry.find? (fun e => e.1 == s) with
  | some e => some e.2
  | none => none

/-- `num_gpus` property: length of `parallel_device_ids`, 0 when unset. -/
def num_gpus (c : Conn) : Nat :=
  match c.parallel_device_ids with
  | none => 0
  | some l => l.length

/-- `on_gpu` property: device ids present and non-empty and CUDA available. -/
def on_gpu (env : Env) (c : Conn) : Bool :=
  match c.parallel_device_ids with
  | some l => decide (0 < l.length) && env.cuda_available
  | none => false

/-- `on_tpu` property: `tpu_cores is not None`. -/
def on_tpu (c : Conn) : Bool := c.tpu_cores.isSome

/-- `on_ipu` property: `ipus is not None`. -/
def on_ipu (c : Conn) : Bool := c.ipus.isSome

/-- `on_cpu` property: `_device_type == DeviceType.CPU`. -/
def on_cpu (c : Conn) : Bool := c._device_type = DeviceType.CPU

/-- `use_dp` property. -/
def use_dp (c : Conn) : Bool := c._distrib_type = some .DP

/-- `use_ddp` property: membership of `_distrib_type` in the DDP family
(lines 280-289 of the source). -/
def use_ddp (c : Conn) : Bool :=
  match c._distrib_type with
  | some .DDP | some .DDP_SPAWN | some .DDP_SHARDED | some .DDP_SHARDED_SPAWN
  | some .DDP_FULLY_SHARDED | some .DEEPSPEED | some .TPU_SPAWN => true
  | _ => false

/-- `use_ddp2` property. -/
def use_ddp2 (c : Conn) : Bool := c._distrib_type = some .DDP2

/-- `use_horovod` property. -/
def use_horovod (c : Conn) : Bool := c._distrib_type = some .HOROVOD

/-- `use_deepspeed` property. -/
def use_deepspeed (c : Conn) : Bool := c._distrib_type = some .DEEPSPEED

/-- `is_training_type_in_plugins` property: some plugin hint is a string
registered in the training-type registry. -/
def is_training_type_in_plugins (env : Env) (c : Conn) : Bool :=
  c.plugins.any (fun h =>
    match h with
    | .str s => (registryLookup env s).isSome
    | _ => false)

/-- `has_horovodrun` static method: `OMPI_COMM_WORLD_RANK` or `HOROVOD_RANK`
present in the environment. -/
def has_horovodrun (env : Env) : Bool := env.ompi_rank_set || env.horovod_rank_set

/-- `tpu_id` property: first entry of an explicit TPU core-id list. -/
def tpu_id (c : Conn) : Option Nat :=
  match c.tpu_cores with
  | some (.ids l) => l.headD 0
  | _ => none

/-- Truthiness of `self.distributed_backend` as used in
`_on_cpu = self.distributed_backend and 'cpu' in self.distributed_backend`
(an accelerator object never reaches that line). -/
def backendMentionsCpu (c : Conn) : Bool :=
  match c.distributed_backend with
  | some (.str s) => !s.data.isEmpty && containsSub s.data "cpu".data
  | _ => false

/-- Is `distributed_backend` a user-supplied `Accelerator` instance? -/
def isAccelBackend (c : Conn) : Bool :=
  match c.distributed_backend with
  | some (.accel _) => true
  | _ => false

/-- Is `distributed_backend` a truthy (non-`None`, non-empty) value? -/
def backendTruthy (c : Conn) : Bool :=
  match c.distributed_backend with
  | some (.str s) => !s.data.isEmpty
  | some (.accel _) => true
  | none => false

/-- `self.num_processes and self.num_processes > 1` (a `None` process count is
falsy). -/
def procGT1 (c : Conn) : Bool :=
  match c.num_processes with
  | some p => decide (1 < p)
  | none => false

/-- `isinstance(x, DeepSpeedPlugin)` on the stored training-type plugin. -/
def isDeepSpeedPlugin : Option Strategy → Bool
  | some t => t.kind = .DeepSpeedK
  | none => false

/-- The `_gpu_distrib_types` tuple `(DP, DDP, DDP_SPAWN, DDP2)` membership. -/
def gpuDistrib : Option DistributedType → Bool
  | some .DP | some .DDP | some .DDP_SPAWN | some .DDP2 => true
  | _ => false

/-- `parallel_devices` property (lines 330-343).  With an explicit TPU core-id
list the Python body never assigns `devices`, so `return devices` raises
`UnboundLocalError`; multiplying a list by a `None` process count raises
`TypeError`. -/
def parallel_devices (env : Env) (c : Conn) : Except Err (List Device) :=
  if on_gpu env c then .ok ((c.parallel_device_ids.getD []).map .cuda)
  else if on_tpu c then
    match c.tpu_cores with
    | some (.count n) => .ok ((List.range n).map .idx)
    | _ => .error .unboundLocal
  else if on_ipu c then
    match c.ipus with
    | some n => .ok ((List.range n).map .idx)
    | none => .error .unboundLocal
  else
    match c.num_processes with
    | some n => .ok (List.replicate n .cpu)
    | none => .error .pyTypeError

/-! ## select_cluster_environment, horovod setup, set_distributed_mode -/

/-- `select_cluster_environment` (lines 539-550): the memoized override wins,
then SLURM, torchelastic, Kubeflow, default. -/
def select_cluster_environment (env : Env) (c : Conn) : ClusterEnv :=
  match c._cluster_environment with
  | some e => e
  | none =>
    if c.is_slurm_managing_tasks then .SLURM
    else if env.torchelastic then .TorchElastic
    else if env.kubeflow then .Kubeflow
    else .Lightning

/-- `_set_horovod_backend` (lines 654-664) including the `check_horovod`
validation; `hvd.init()` is an external side effect, `hvd.local_size()` is
read from the environment. -/
def set_horovod_backend (env : Env) (c : Conn) : Except Err Conn :=
  if env.horovod_available = false then .error .horovodUnavailable
  else if 1 < num_gpus c ∨ 1 < c.num_nodes then .error .horovodMisconfig
  else
    let c := {c with _distrib_type := some .HOROVOD}
    if on_gpu env c then .ok {c with parallel_device_ids := some (List.range env.hvd_local_size)}
    else .ok {c with num_processes := some env.hvd_local_size}

/-- `check_interactive_compatibility` (lines 666-677). -/
def interactiveCheck (env : Env) (c : Conn) : Except Err Unit :=
  if env.is_interactive = true then
    match c._distrib_type with
    | some d => if d.is_interactive_compatible = false then .error (.interactiveIncompatible d) else .ok ()
    | none => .ok ()
  else .ok ()

/-- Argument handling at the top of `set_distributed_mode` (lines 557-560):
a registered name is replaced by its registry `distributed_backend`, any other
explicit argument is stored as-is. -/
def mergeArg (env : Env) (arg : Option String) (c : Conn) : Conn :=
  match arg with
  | none => c
  | some s =>
    match registryLookup env s with
    | some e => {c with distributed_backend := some (.str e.backend)}
    | none => {c with distributed_backend := some (.str s)}

/-- The backend-unset inference block (lines 565-575): horovod launcher
detection, CPU multi-node/multi-process DDP, multi-GPU `ddp_spawn` warning.
The `or` at line 568 short-circuits, so a `None` process count raises
`TypeError` only when the node count does not decide the condition. -/
def sdm_infer (env : Env) (c : Conn) : Except Err (Conn × List Warning) :=
  if c.distributed_backend ≠ none then .ok (c, [])
  else if has_horovodrun env then (set_horovod_backend env c).map (fun c => (c, []))
  else if num_gpus c = 0 then
    if 1 < c.num_nodes then .ok ({c with _distrib_type := some .DDP}, [])
    else
      match c.num_processes with
      | some p => if 1 < p then .ok ({c with _distrib_type := some .DDP}, []) else .ok (c, [])
      | none => .error .pyTypeError
  else if 1 < num_gpus c then
    .ok ({c with distributed_backend := some (.str "ddp_spawn")}, [Warning.multiGpuNoBackend])
  else .ok (c, [])

/-- The special-case chain (lines 577-596): `"ddp_cpu"`, TPU, `"ipu"`, then
direct parsing of the backend string into a `DistributedType` (which raises
`ValueError` on an unknown name). -/
def sdm_special (env : Env) (c : Conn) : Except Err (Conn × List Warning) :=
  if c.distributed_backend = some (.str "ddp_cpu") then
    let c := {c with _distrib_type := some .DDP_SPAWN}
    let r := if 0 < num_gpus c then ({c with parallel_device_ids := none}, [Warning.ddpCpuGpusUnused])
             else (c, ([] : List Warning))
    let c := r.1
    let c := if c.num_processes = none then {c with num_processes := some env.cpu_count} else c
    .ok (c, r.2)
  else if c.distributed_backend = some (.str "tpu") ∨ c.tpu_cores ≠ none then
    let c := {c with _device_type := .TPU}
    let c := match c.tpu_cores with
             | some (.count _) => {c with _distrib_type := some .TPU_SPAWN}
             | _ => c
    .ok (c, [])
  else if c.distributed_backend = some (.str "ipu") then
    .ok ({c with _device_type := .IPU}, [])
  else if backendTruthy c = true ∧ c._distrib_type = none then
    match c.distributed_backend with
    | some (.str s) =>
      match DistributedType.fromString s with
      | some d => .ok ({c with _distrib_type := some d}, [])
      | none => .error (.invalidBackendString s)
    | _ => .ok (c, [])
  else .ok (c, [])

/-- The GPU-availability guard (lines 603-614): with no GPUs, a pending kind in
`(DP, DDP, DDP_SPAWN, DDP2)` and no "cpu" mention in the backend, warn and
downgrade to DDP (multi-node or multi-process) or clear the kind entirely. -/
def gpuGuard (c : Conn) (onCpu : Bool) : Conn × List Warning :=
  if num_gpus c = 0 ∧ gpuDistrib c._distrib_type = true ∧ onCpu = false then
    if 1 < c.num_nodes ∨ procGT1 c = true then
      ({c with _distrib_type := some .DDP}, [Warning.noGpuDowngrade])
    else
      ({c with _distrib_type := none}, [Warning.noGpuDowngrade, Warning.distributedNoEffect])
  else (c, [])

/-- The device-kind promotion (lines 598-601): with GPUs requested and no
"cpu" mention in the backend, the device kind becomes GPU. -/
def sdm_promote (c : Conn) : Conn :=
  if 0 < num_gpus c ∧ backendMentionsCpu c = false then {c with _device_type := .GPU} else c

/-- The process-count back-fill (lines 619-627): GPU+DDP/DDP-spawn overwrites
the process count with the GPU count, GPU+DDP2 with the node count. -/
def sdm_backfill_np (c : Conn) : Conn :=
  let c4 := if c._device_type = .GPU
               ∧ (c._distrib_type = some .DDP ∨ c._distrib_type = some .DDP_SPAWN)
            then {c with num_processes := some (num_gpus c)} else c
  if c4._device_type = .GPU ∧ c4._distrib_type = some .DDP2
  then {c4 with num_processes := some c4.num_nodes} else c4

/-- The explicit-horovod special case (lines 629-631). -/
def sdm_horovod_step (env : Env) (c : Conn) : Except Err Conn :=
  if c.distributed_backend = some (.str "horovod") then set_horovod_backend env c else .ok c

/-- The body of `set_distributed_mode` between the early returns and the
multi-node validation (lines 565-631); note the "cpu"-mention test is
evaluated once, before the guard can clear `parallel_device_ids`. -/
def sdm_pre (env : Env) (c : Conn) : Except Err (Conn × List Warning) :=
  match sdm_infer env c with
  | .error e => .error e
  | .ok (c1, w1) =>
    match sdm_special env c1 with
    | .error e => .error e
    | .ok (c2, w2) =>
      let r := gpuGuard (sdm_promote c2) (backendMentionsCpu c2)
      match interactiveCheck env r.1 with
      | .error e => .error e
      | .ok _ =>
        match sdm_horovod_step env (sdm_backfill_np r.1) with
        | .error e => .error e
        | .ok c6 => .ok (c6, w1 ++ w2 ++ r.2)

/-- `set_distributed_mode` (lines 552-652).  `arg` is the optional
`distributed_backend` parameter (`none` from `__init__`, a hint string from
`handle_given_plugins`).  Returns the updated connector state and the
accumulated `rank_zero_warn` warnings, or the raised exception. -/
def set_distributed_mode (env : Env) (arg : Option String) (c : Conn) :
    Except Err (Conn × List Warning) :=
  if arg = none ∧ is_training_type_in_plugins env c = true then .ok (c, [])
  else
    let c := mergeArg env arg c
    if isAccelBackend c = true then .ok (c, [])
    else
      match sdm_pre env c with
      | .error e => .error e
      | .ok (c, w) =>
        if 1 < c.num_nodes ∧ use_ddp c = false ∧ use_ddp2 c = false then .error .multiNode
        else
          let w4 := if env.cuda_available = true ∧ c._device_type ≠ .GPU
                    then [Warning.gpuAvailableButUnused] else []
          .ok (c, w ++ w4)

/-! ## configure_slurm_ddp -/

/-- The `try` block of `configure_slurm_ddp` (lines 703-720): a missing or
malformed variable anywhere in the block lands in the `except` handler, which
forces the flag to `False`. -/
def slurmFlag (env : Env) (c : Conn) : Bool :=
  match env.slurm_ntasks with
  | none => false
  | some s =>
    match pyInt s with
    | none => false
    | some n =>
      let nrg := num_gpus c * c.num_nodes
      let flag : Bool :=
        if nrg = 0 then
          match c.num_processes with
          | some p => decide (n = (p : Int))
          | none => false
        else decide (n = (nrg : Int))
      match env.slurm_job_name with
      | none => false
      | some j => if j = "bash" then false else flag

/-- `configure_slurm_ddp` (lines 698-732): only evaluated for DDP/DDP2 kinds;
the test-only `FAKE_SLURM_MANAGING_TASKS` variable can force the flag on
afterwards. -/
def configure_slurm_ddp (env : Env) (c : Conn) : Conn :=
  let c := if use_ddp c = true ∨ use_ddp2 c = true
           then {c with is_slurm_managing_tasks := slurmFlag env c} else c
  match env.fake_slurm with
  | some s =>
    match pyInt s with
    | some n => if n ≠ 0 then {c with is_slurm_managing_tasks := true} else c
    | none => c
  | none => c

/-! ## handle_given_plugins -/

/-- The classification accumulator of `handle_given_plugins`: the three local
override variables, plus the threaded connector state and warnings. -/
structure PAcc where
  conn : Conn
  training : Option Strategy
  precision : Option PrecisionPluginV
  cenv : Option ClusterEnv
  warns : List Warning
deriving DecidableEq, Repr

/-- One iteration of the `handle_given_plugins` loop (lines 179-223).  A
string hint is first checked against the registry (a second strategy sighting
raises), then unconditionally resets `_distrib_type` and re-runs
`set_distributed_mode` with the hint; object hints fill their category or
raise on a second sighting; anything else raises. -/
def handle_plugin_step (env : Env) (h : PluginHint) (a : PAcc) : Except Err PAcc :=
  match h with
  | .str s =>
    match registryLookup env s with
    | some e =>
      match a.training with
      | some _ => .error (.multipleTrainingTypeStr e.plugin.kind s)
      | none =>
        match set_distributed_mode env (some s) {a.conn with _distrib_type := none} with
        | .error er => .error er
        | .ok (c, w) => .ok {a with conn := c, training := some e.plugin, warns := a.warns ++ w}
    | none =>
      match set_distributed_mode env (some s) {a.conn with _distrib_type := none} with
      | .error er => .error er
      | .ok (c, w) => .ok {a with conn := c, warns := a.warns ++ w}
  | .training t =>
    match a.training with
    | none => .ok {a with training := some t}
    | some _ => .error (.multipleTrainingType t.kind)
  | .precision p =>
    match a.precision with
    | none => .ok {a with precision := some p}
    | some _ => .error (.multiplePrecision p)
  | .clusterEnv e =>
    match a.cenv with
    | none => .ok {a with cenv := some e}
    | some _ => .error .multipleClusterEnv
  | .invalid id => .error (.invalidPlugin id)

/-- The `handle_given_plugins` loop over the hint list. -/
def handle_plugins_loop (env : Env) : List PluginHint → PAcc → Except Err PAcc
  | [], a => .ok a
  | h :: t, a =>
    match handle_plugin_step env h a with
    | .error e => .error e
    | .ok a' => handle_plugins_loop env t a'

/-- `handle_given_plugins` (lines 173-227): classify every hint, then store
the overrides, defaulting the cluster environment through
`select_cluster_environment`. -/
def handle_given_plugins (env : Env) (c : Conn) : Except Err (Conn × List Warning) :=
  match handle_plugins_loop env c.plugins ⟨c, none, none, none, []⟩ with
  | .error e => .error e
  | .ok a =>
    let c := a.conn
    let ce := match a.cenv with
              | some e => e
              | none => select_cluster_environment env c
    .ok ({c with _training_type_plugin := a.training, _precision_plugin := a.precision,
                 _cluster_environment := some ce}, a.warns)

/-! ## Strategy selection, back-fill and memoization -/

/-- Modelled from the spec: construction of a DDP-family strategy object
(plugin classes live outside `src/`): it owns a device list, a
cluster-environment reference, a node count, a batch-norm-sync flag and a
process count. -/
def mkDDPFamily (k : StrategyKind) (devs : List Device) (ce : Option ClusterEnv) : Strategy :=
  { kind := k, parallel_devices := some (some devs), num_processes := some devs.length,
    cluster_environment := some ce, num_nodes := some 1, sync_batchnorm := some false,
    device := none }

/-- Modelled from the spec: construction of a plain parallel strategy object
(DP / Horovod / TPU-spawn / IPU): it owns a device list and a
cluster-environment reference only. -/
def mkParallel (k : StrategyKind) (devs : List Device) (ce : Option ClusterEnv) : Strategy :=
  { kind := k, parallel_devices := some (some devs), num_processes := none,
    cluster_environment := some ce, num_nodes := none, sync_batchnorm := none,
    device := none }

/-- Modelled from the spec: construction of a single-device strategy object;
it owns only its device. -/
def mkSingleDevice (k : StrategyKind) (d : Device) : Strategy :=
  { kind := k, parallel_devices := none, num_processes := none,
    cluster_environment := none, num_nodes := none, sync_batchnorm := none,
    device := some d }

/-- `select_training_type_plugin` (lines 425-491). -/
def select_training_type_plugin (env : Env) (c : Conn) : Except Err Strategy :=
  match c.distributed_backend with
  | some (.accel a) =>
    match a.training_type with
    | some t => .ok t
    | none => select_ttp_auto env c
  | _ => select_ttp_auto env c
where
  /-- The non-custom-accelerator branch chain of `select_training_type_plugin`. -/
  select_ttp_auto (env : Env) (c : Conn) : Except Err Strategy :=
    if use_ddp2 c then
      (parallel_devices env c).map (fun devs => mkDDPFamily .DDP2K devs c._cluster_environment)
    else if use_ddp c && use_deepspeed c then
      (parallel_devices env c).map
        (fun devs => mkDDPFamily .DeepSpeedK devs (some (select_cluster_environment env c)))
    else if use_ddp c then
      let use_slurm_ddp := c.is_slurm_managing_tasks
      let use_torchelastic_ddp := env.torchelastic && !env.pl_in_ddp_subprocess
      let use_kubeflow_ddp := env.kubeflow
      let use_ddp_spawn := c._distrib_type = some .DDP_SPAWN
      let use_ddp_cpu_spawn := on_cpu c
      let use_tpu_spawn := on_tpu c && c._distrib_type = some .TPU_SPAWN
      let use_ddp_cpu_torch_elastic := use_ddp_cpu_spawn && env.torchelastic
      let use_ddp_cpu_kubeflow := use_ddp_cpu_spawn && env.kubeflow
      let use_ddp_cpu_slurm := use_ddp_cpu_spawn && c.is_slurm_managing_tasks
      let k : StrategyKind :=
        if use_tpu_spawn then .TPUSpawnK
        else if c._distrib_type = some .DDP_SHARDED then .DDPShardedK
        else if c._distrib_type = some .DDP_SHARDED_SPAWN then .DDPSpawnShardedK
        else if use_ddp_cpu_slurm || use_slurm_ddp || use_ddp_cpu_torch_elastic
                || use_torchelastic_ddp || use_kubeflow_ddp || use_ddp_cpu_kubeflow then .DDPK
        else if use_ddp_spawn || use_ddp_cpu_spawn then .DDPSpawnK
        else if c._distrib_type = some .DDP_FULLY_SHARDED then .DDPFullyShardedK
        else .DDPK
      (parallel_devices env c).map (fun devs =>
        match k with
        | .TPUSpawnK => mkParallel .TPUSpawnK devs c._cluster_environment
        | k => mkDDPFamily k devs c._cluster_environment)
    else if use_dp c then
      (parallel_devices env c).map (fun devs => mkParallel .DataParallelK devs none)
    else if use_horovod c then
      (parallel_devices env c).map (fun devs => mkParallel .HorovodK devs none)
    else if on_tpu c && (match c.tpu_cores with | some (.ids _) => true | _ => false) then
      .ok (mkSingleDevice .SingleTPUK (.idx ((tpu_id c).getD 0)))
    else if on_ipu c then
      (parallel_devices env c).map (fun devs => mkParallel .IPUPluginK devs none)
    else
      .ok (mkSingleDevice .SingleDeviceK
        (if on_gpu env c then .cuda ((c.parallel_device_ids.getD []).headD 0) else .cpu))

/-- First half of `resolve_training_type_plugin` (lines 495-498): if the
strategy exposes an unset device list, fill it from the `parallel_devices`
property and, if it also exposes a process count, set that to the device-list
length. -/
def backfillDevices (env : Env) (c : Conn) (t : Strategy) : Except Err Strategy :=
  if t.parallel_devices = some none then
    match parallel_devices env c with
    | .error e => .error e
    | .ok devs =>
      let t2 := {t with parallel_devices := some (some devs)}
      .ok (if t2.num_processes ≠ none then {t2 with num_processes := some devs.length} else t2)
  else .ok t

/-- Second half of `resolve_training_type_plugin` (lines 500-509): fill an
unset cluster environment, and always overwrite exposed node-count and
batch-norm-sync fields from the trainer settings. -/
def backfillRest (env : Env) (c : Conn) (t : Strategy) : Strategy :=
  let t2 := if t.cluster_environment = some none
            then {t with cluster_environment := some (some (select_cluster_environment env c))}
            else t
  let t3 := if t2.num_nodes ≠ none then {t2 with num_nodes := some c.num_nodes} else t2
  if t3.sync_batchnorm ≠ none then {t3 with sync_batchnorm := some c.sync_batchnorm} else t3

/-- `resolve_training_type_plugin` (lines 493-511): the back-fill step over a
(possibly user-supplied) strategy object. -/
def resolve_training_type_plugin (env : Env) (c : Conn) (t : Strategy) : Except Err Strategy :=
  match backfillDevices env c t with
  | .error e => .error e
  | .ok t => .ok (backfillRest env c t)

/-- The `training_type_plugin` property (lines 235-245): memoized resolution.
The first successful read selects (if no user plugin was classified),
back-fills, stores the result and sets `_training_type_plugin_resolved`;
later reads return the stored value untouched. -/
def training_type_plugin (env : Env) (c : Conn) : Except Err (Conn × Option Strategy) :=
  if c._training_type_plugin_resolved = true then .ok (c, c._training_type_plugin)
  else
    match
      (match c._training_type_plugin with
       | some t => .ok t
       | none => select_training_type_plugin env c : Except Err Strategy) with
    | .error e => .error e
    | .ok t =>
      match resolve_training_type_plugin env c t with
      | .error e => .error e
      | .ok t' =>
        .ok ({c with _training_type_plugin := some t', _training_type_plugin_resolved := true},
             some t')

/-! ## Precision selection and accelerator assembly -/

/-- `_is_sharded_training_type` (lines 303-305): a property read of
`training_type_plugin`, so it can trigger (memoized) resolution. -/
def isShardedTT (env : Env) (c : Conn) : Except Err (Conn × Bool) :=
  match training_type_plugin env c with
  | .error e => .error e
  | .ok (c, p) =>
    .ok (c, match p with
            | some t => decide (t.kind = .DDPShardedK ∨ t.kind = .DDPSpawnShardedK)
            | none => false)

/-- `_is_fully_sharded_training_type` (lines 307-309). -/
def isFullyShardedTT (env : Env) (c : Conn) : Except Err (Conn × Bool) :=
  match training_type_plugin env c with
  | .error e => .error e
  | .ok (c, p) =>
    .ok (c, match p with
            | some t => decide (t.kind = .DDPFullyShardedK)
            | none => false)

/-- The APEX arm of `select_precision_plugin` (lines 409-421), also reached
through the native-backend fallback with a pending warning. -/
def apexArm (env : Env) (c : Conn) (w : List Warning) : Except Err (Conn × PrecisionPluginV × List Warning) :=
  if env.apex_available = false then .error .apexUnavailable
  else
    match isShardedTT env c with
    | .error e => .error e
    | .ok (c, sh) =>
      if sh then .error .apexShardedIncompatible
      else
        match isFullyShardedTT env c with
        | .error e => .error e
        | .ok (c, fsh) =>
          if fsh then .error .apexShardedIncompatible
          else .ok (c, .apexMixed c.amp_level, w)

/-- `select_precision_plugin` (lines 369-423).  The in-place re-assignment
`self.amp_type = AMPType.from_str(self.amp_type)` is modelled by resolving the
enum value locally (nothing later reads the raw string back). -/
def select_precision_plugin (env : Env) (c : Conn) : Except Err (Conn × PrecisionPluginV × List Warning) :=
  let amp := AMPType.from_str c.amp_type
  if on_ipu c then .ok (c, .ipuPrecision c.precision, [])
  else if c._distrib_type = some .DEEPSPEED ∨ isDeepSpeedPlugin c._training_type_plugin = true then
    .ok (c, .deepspeedPrecision c.precision, [])
  else if c.precision = 32 then .ok (c, .precision32, [])
  else if c.precision = 64 then .ok (c, .doublePrecision, [])
  else if c.precision = 16 then
    if on_tpu c then .ok (c, .tpuHalf, [])
    else if amp = some .NATIVE then
      if on_cpu c then .error .nativeAmpOnCPU
      else if env.native_amp_available = false then
        if env.apex_available then apexArm env c [Warning.nativeAmpFallbackToApex]
        else .error .nativeAmpUnavailable
      else
        match isShardedTT env c with
        | .error e => .error e
        | .ok (c, sh) =>
          if sh then .ok (c, .shardedNativeMixed, [])
          else
            match isFullyShardedTT env c with
            | .error e => .error e
            | .ok (c, fsh) =>
              if fsh then .ok (c, .fullyShardedNativeMixed, [])
              else .ok (c, .nativeMixed, [])
    else if amp = some .APEX then apexArm env c []
    else .error .unsupportedPrecision
  else .error .unsupportedPrecision

/-- The `precision_plugin` property (lines 229-233): memoized selection. -/
def precision_plugin (env : Env) (c : Conn) : Except Err (Conn × PrecisionPluginV × List Warning) :=
  match c._precision_plugin with
  | some p => .ok (c, p, [])
  | none =>
    match select_precision_plugin env c with
    | .error e => .error e
    | .ok (c, p, w) => .ok ({c with _precision_plugin := some p}, p, w)

/-- The (device-class) accelerator chosen by `select_accelerator`, or the
user-supplied accelerator returned verbatim. -/
inductive AccelResult
  | custom (a : CustomAccel)
  | built (devClass : DeviceType) (tt : Option Strategy) (pp : PrecisionPluginV)
deriving DecidableEq, Repr

/-- `select_accelerator` (lines 513-537): a user-supplied `Accelerator`
instance short-circuits everything (warning if plugin hints were classified);
otherwise the device class is picked and the strategy is resolved before the
precision plugin. -/
def select_accelerator (env : Env) (c : Conn) : Except Err (Conn × AccelResult × List Warning) :=
  match c.distributed_backend with
  | some (.accel a) =>
    let w := if c._precision_plugin ≠ none ∨ c._training_type_plugin ≠ none
             then [Warning.ignoredPluginsWithCustomAccel] else []
    .ok (c, .custom a, w)
  | _ =>
    let cls : DeviceType :=
      if on_gpu env c then .GPU
      else if on_tpu c then .TPU
      else if on_ipu c then .IPU
      else .CPU
    match training_type_plugin env c with
    | .error e => .error e
    | .ok (c, tt) =>
      match precision_plugin env c with
      | .error e => .error e
      | .ok (c, pp, w) => .ok (c, .built cls tt pp, w)

/-! ## Plugins-argument normalization in `__init__` -/

/-- The raw `plugins` construction parameter: `None`, a bare string, a bare
(non-sequence) plugin object, or a sequence of hints. -/
inductive PluginsArg
  | nonePy
  | strPy (s : String)
  | objPy (h : PluginHint)
  | seqPy (l : List PluginHint)
deriving DecidableEq, Repr

/-- The normalization at lines 126-134 of `__init__`: `None` becomes `[]`, a
bare string becomes a one-element list (checked before the `Sequence` test,
since Python strings are sequences), any other non-sequence is wrapped in a
one-element list, and sequences pass through. -/
def normalize_plugins : PluginsArg → List PluginHint
  | .nonePy => []
  | .strPy s => [.str s]
  | .objPy h => [h]
  | .seqPy l => l

/-! ## Error-message payloads -/

/-- The class name interpolated for a plugin class in an error message
(`type(plug).__name__` and the registry's stored class). -/
def strategyClassName : StrategyKind → String
  | .DDP2K => "DDP2Plugin"
  | .DeepSpeedK => "DeepSpeedPlugin"
  | .TPUSpawnK => "TPUSpawnPlugin"
  | .DDPShardedK => "DDPShardedPlugin"
  | .DDPSpawnShardedK => "DDPSpawnShardedPlugin"
  | .DDPK => "DDPPlugin"
  | .DDPSpawnK => "DDPSpawnPlugin"
  | .DDPFullyShardedK => "DDPFullyShardedPlugin"
  | .DataParallelK => "DataParallelPlugin"
  | .HorovodK => "HorovodPlugin"
  | .SingleTPUK => "SingleTPUPlugin"
  | .IPUPluginK => "IPUPlugin"
  | .SingleDeviceK => "SingleDevicePlugin"
  | .CustomK id => "CustomPlugin" ++ toString id

/-- The class name interpolated for a precision plugin in an error message. -/
def precisionClassName : PrecisionPluginV → String
  | .precision32 => "PrecisionPlugin"
  | .doublePrecision => "DoublePrecisionPlugin"
  | .ipuPrecision _ => "IPUPrecisionPlugin"
  | .deepspeedPrecision _ => "DeepSpeedPrecisionPlugin"
  | .tpuHalf => "TPUHalfPrecisionPlugin"
  | .nativeMixed => "NativeMixedPrecisionPlugin"
  | .shardedNativeMixed => "ShardedNativeMixedPrecisionPlugin"
  | .fullyShardedNativeMixed => "FullyShardedNativeMixedPrecisionPlugin"
  | .apexMixed _ => "ApexMixedPrecisionPlugin"
  | .customPrecision id => "CustomPrecisionPlugin" ++ toString id

/-- The identifying values an error message interpolates (empty when the
message is a fixed string naming nothing), read off the f-strings at
lines 184-222 of the source. -/
def errNamedValues : Err → List String
  | .multipleTrainingTypeStr k s => [strategyClassName k, s]
  | .multipleTrainingType k => [strategyClassName k]
  | .multiplePrecision p => [precisionClassName p]
  | .multipleClusterEnv => []
  | .invalidPlugin id => ["plugin" ++ toString id]
  | _ => []

/-! ## Shared concrete fixtures -/

/-- A quiet host environment: no schedulers, no GPUs, native AMP available. -/
def env0 : Env :=
  { cuda_available := false, cpu_count := 8, is_interactive := false,
    torchelastic := false, kubeflow := false, pl_in_ddp_subprocess := false,
    native_amp_available := true, apex_available := false, horovod_available := false,
    ompi_rank_set := false, horovod_rank_set := false, hvd_local_size := 1,
    slurm_ntasks := none, slurm_job_name := none, fake_slurm := none, registry := [] }

/-- A freshly initialized connector state (the attribute values set at the top
of `__init__` for a default single-process CPU configuration). -/
def conn0 : Conn :=
  { _device_type := .CPU, _distrib_type := none, num_processes := some 1,
    tpu_cores := none, ipus := none, distributed_backend := none, parallel_device_ids := none,
    num_nodes := 1, sync_batchnorm := false, precision := 32, amp_type := some "native",
    amp_level := none, is_slurm_managing_tasks := false, _precision_plugin := none,
    _training_type_plugin := none, _cluster_environment := none, plugins := [],
    _training_type_plugin_resolved := false }

/-- The strategy produced for the default single-process CPU configuration. -/
def strat7 : Strategy := mkSingleDevice .SingleDeviceK .cpu

/-- The connector state after the first `training_type_plugin` read on `conn0`. -/
def conn7r : Conn :=
  {conn0 with _training_type_plugin := some strat7, _training_type_plugin_resolved := true}

/-- A user-supplied strategy exposing every optional field, with device list
and cluster environment unset and stale node-count/sync values. -/
def strat9 : Strategy :=
  { kind := .CustomK 1, parallel_devices := some none, num_processes := some 0,
    cluster_environment := some none, num_nodes := some 9, sync_batchnorm := some true,
    device := none }

/-- The back-filled result of `strat9` on the default configuration. -/
def strat9r : Strategy :=
  { kind := .CustomK 1, parallel_devices := some (some [Device.cpu]),
    num_processes := some 1, cluster_environment := some (some .Lightning),
    num_nodes := some 1, sync_batchnorm := some false, device := none }

/-- Environment for the C5 counterexample: `SLURM_NTASKS=0`, a non-interactive
job name, no fake override. -/
def env5x : Env := {env0 with slurm_ntasks := some "0", slurm_job_name := some "train"}

/-- Connector for the C5 counterexample: two GPUs requested, node count 0,
process count 5, DDP kind. -/
def conn5x : Conn :=
  {conn0 with _distrib_type := some .DDP, parallel_device_ids := some [0, 1],
              num_nodes := 0, num_processes := some 5}

/-- Environment for the C5 witness: four SLURM tasks, job name "job". -/
def env5w : Env := {env0 with slurm_ntasks := some "4", slurm_job_name := some "job"}

/-- Connector for the C5 witness: two GPUs on two nodes, DDP kind. -/
def conn5w : Conn :=
  {conn0 with _distrib_type := some .DDP, parallel_device_ids := some [0, 1], num_nodes := 2}

/-- Connector for the C6 witness: backend `"ddp_cpu"` with two visible GPUs
and an unset process count. -/
def conn6 : Conn :=
  {conn0 with distributed_backend := some (.str "ddp_cpu"),
              parallel_device_ids := some [0, 1], num_processes := none}

/-- Connector for the C4 witness: GPU device, precision 16, a resolved sharded
strategy. -/
def conn4 : Conn :=
  {conn0 with _device_type := .GPU, precision := 16,
              _training_type_plugin := some (mkDDPFamily .DDPShardedK [Device.cuda 0] none),
              _training_type_plugin_resolved := true}

/-- C1 counterexample fixture: node count 2 with backend `"ddp_sharded"`. -/
def conn1x : Conn :=
  {conn0 with num_nodes := 2, distributed_backend := some (.str "ddp_sharded")}

/-- The three override categories of `handle_given_plugins`. -/
inductive HintCat
  | strat | precC | envC
deriving DecidableEq, Repr

/-- The classification category of a plugin hint: registry strings and
training-type objects are strategy hints, precision and cluster-environment
objects their own categories; unregistered strings and unrecognized objects
have no category. -/
def hintCategory (env : Env) : PluginHint → Option HintCat
  | .str s => if (registryLookup env s).isSome then some .strat else none
  | .training _ => some .strat
  | .precision _ => some .precC
  | .clusterEnv _ => some .envC
  | .invalid _ => none

/-- Whether the accumulator already holds an override of the category. -/
def catFilled (cat : HintCat) (a : PAcc) : Bool :=
  match cat with
  | .strat => a.training.isSome
  | .precC => a.precision.isSome
  | .envC => a.cenv.isSome

/-- A plugin-object hint (training-type, precision or cluster environment). -/
def isObjHint : PluginHint → Bool
  | .training _ => true
  | .precision _ => true
  | .clusterEnv _ => true
  | _ => false

/-- Fixture: two user cluster environments. -/
def conn3x : Conn := {conn0 with plugins := [.clusterEnv (.custom 0), .clusterEnv (.custom 1)]}

/-- Fixture: one unrecognized plugin object. -/
def conn3y : Conn := {conn0 with plugins := [.invalid 7]}

/-- Fixture: two training-type objects (a conflict). -/
def conn3a : Conn :=
  {conn0 with plugins := [.training (mkSingleDevice .SingleDeviceK .cpu),
                          .training (mkParallel .DataParallelK [] none)]}

/-- Fixture: three recognized object hints, one per category. -/
def conn3b : Conn :=
  {conn0 with plugins := [.training (mkSingleDevice .SingleDeviceK .cpu),
                          .precision .nativeMixed, .clusterEnv (.custom 3)]}

/-! ## C10: plugins-argument normalization -/

/-- C10: the `plugins` construction parameter is normalized before
classification — a bare string, a bare plugin object, or `None` produce
exactly the same connector state (hence the same resolution, in particular the
same `handle_given_plugins` outcome) as the corresponding explicit list. -/
theorem c10_plugins_normalization (env : Env) (c : Conn) (s : String) (h : PluginHint) :
    normalize_plugins (.strPy s) = normalize_plugins (.seqPy [.str s]) ∧
    normalize_plugins (.objPy h) = normalize_plugins (.seqPy [h]) ∧
    normalize_plugins .nonePy = normalize_plugins (.seqPy []) ∧
    ({c with plugins := normalize_plugins (.strPy s)} : Conn)
      = {c with plugins := normalize_plugins (.seqPy [.str s])} ∧
    ({c with plugins := normalize_plugins (.objPy h)} : Conn)
      = {c with plugins := normalize_plugins (.seqPy [h])} ∧
    ({c with plugins := normalize_plugins .nonePy} : Conn)
      = {c with plugins := normalize_plugins (.seqPy [])} ∧
    handle_given_plugins env {c with plugins := normalize_plugins (.objPy h)}
      = handle_given_plugins env {c with plugins := normalize_plugins (.seqPy [h])} :=
  ⟨rfl, rfl, rfl, rfl, rfl, rfl, rfl⟩

/-! ## C2: the no-GPU downgrade guard -/

/-- C2: with GPU count 0 (which already entails the device is not actually
available), a pending kind among DP/DDP/DDP-spawn/DDP2 and a backend name not
mentioning "cpu", the guard inside `set_distributed_mode` warns and
downgrades: to DDP when the node count or process count exceeds one, and
otherwise clears the kind entirely with a second warning. -/
theorem c2_no_gpu_downgrade (c : Conn)
    (h0 : num_gpus c = 0) (hd : gpuDistrib c._distrib_type = true)
    (hcpu : backendMentionsCpu c = false) :
    Warning.noGpuDowngrade ∈ (gpuGuard c (backendMentionsCpu c)).2 ∧
    (1 < c.num_nodes ∨ procGT1 c = true →
      (gpuGuard c (backendMentionsCpu c)).1._distrib_type = some .DDP) ∧
    (¬(1 < c.num_nodes ∨ procGT1 c = true) →
      (gpuGuard c (backendMentionsCpu c)).1._distrib_type = none ∧
      Warning.distributedNoEffect ∈ (gpuGuard c (backendMentionsCpu c)).2) := by
  rw [hcpu]
  unfold gpuGuard
  rw [if_pos ⟨h0, hd, rfl⟩]
  by_cases hc : 1 < c.num_nodes ∨ procGT1 c = true
  · rw [if_pos hc]
    refine ⟨by simp, fun _ => rfl, fun hn => absurd hc hn⟩
  · rw [if_neg hc]
    exact ⟨by simp, fun hcc => absurd hcc hc, fun _ => ⟨rfl, by simp⟩⟩

/-- C2 witness: a concrete single-process CPU state with a pending DDP kind is
downgraded to no distribution at all, with both warnings. -/
theorem c2_no_gpu_downgrade_witness :
    (gpuGuard {conn0 with _distrib_type := some .DDP}
        (backendMentionsCpu {conn0 with _distrib_type := some .DDP})).1._distrib_type = none ∧
    Warning.distributedNoEffect ∈
      (gpuGuard {conn0 with _distrib_type := some .DDP}
        (backendMentionsCpu {conn0 with _distrib_type := some .DDP})).2 :=
  (c2_no_gpu_downgrade {conn0 with _distrib_type := some .DDP}
    rfl rfl rfl).2.2 (by decide)

/-! ## C8: user-supplied accelerator bypass -/

/-- C8: when `distributed_backend` is a fully user-supplied accelerator
object, `select_accelerator` returns that exact object with the connector
state untouched (so neither strategy nor precision selection ran), and emits a
non-fatal warning exactly when a strategy or precision plugin hint had been
classified. -/
theorem c8_custom_accelerator (env : Env) (c : Conn) (a : CustomAccel)
    (h : c.distributed_backend = some (.accel a)) :
    select_accelerator env c =
      .ok (c, .custom a,
        if c._precision_plugin ≠ none ∨ c._training_type_plugin ≠ none
        then [Warning.ignoredPluginsWithCustomAccel] else []) := by
  unfold select_accelerator
  rw [h]

/-- C8 witness: a concrete connector carrying a custom accelerator and a
classified precision hint returns the accelerator verbatim with the
ignored-plugins warning. -/
theorem c8_custom_accelerator_witness :
    select_accelerator env0
        {conn0 with distributed_backend := some (.accel ⟨5, none⟩),
                    _precision_plugin := some .nativeMixed} =
      .ok ({conn0 with distributed_backend := some (.accel ⟨5, none⟩),
                       _precision_plugin := some .nativeMixed},
           .custom ⟨5, none⟩, [Warning.ignoredPluginsWithCustomAccel]) := by
  have h := c8_custom_accelerator env0
    {conn0 with distributed_backend := some (.accel ⟨5, none⟩),
                _precision_plugin := some .nativeMixed} ⟨5, none⟩ rfl
  simpa using h

/-! ## C7: memoization of the training_type_plugin property -/

/-- C7: a successful read of the `training_type_plugin` property is memoized —
reading again from the resulting state returns exactly the same state and the
same strategy instance without re-running selection or back-fill, and an
initial read from a fresh state (nothing classified, not yet resolved) is the
back-filled result of selection. -/
theorem c7_training_type_plugin_memoized (env : Env) (c c1 : Conn) (p : Option Strategy)
    (h : training_type_plugin env c = .ok (c1, p)) :
    training_type_plugin env c1 = .ok (c1, p) ∧
    (c._training_type_plugin_resolved = false → c._training_type_plugin = none →
      ∃ sel t', select_training_type_plugin env c = .ok sel ∧
        resolve_training_type_plugin env c sel = .ok t' ∧ p = some t' ∧
        c1 = {c with _training_type_plugin := some t',
                     _training_type_plugin_resolved := true}) := by
  unfold training_type_plugin at h
  by_cases hr : c._training_type_plugin_resolved = true
  · rw [if_pos hr] at h
    simp only [Except.ok.injEq, Prod.mk.injEq] at h
    obtain ⟨hc1, hp⟩ := h
    subst hc1
    constructor
    · unfold training_type_plugin
      rw [if_pos hr, hp]
    · intro hf
      rw [hr] at hf
      exact absurd hf (by simp)
  · rw [if_neg hr] at h
    split at h
    next e heq => exact absurd h (by simp)
    next t heq =>
      split at h
      next e2 heq2 => exact absurd h (by simp)
      next t' heq2 =>
        simp only [Except.ok.injEq, Prod.mk.injEq] at h
        obtain ⟨hc1, hp⟩ := h
        constructor
        · unfold training_type_plugin
          rw [← hc1, ← hp]
          rfl
        · intro _ hnone
          rw [hnone] at heq
          simp only [] at heq
          exact ⟨t, t', heq, heq2, hp.symm, hc1.symm⟩

/-- C7 witness: on the fresh default state the first read resolves the
single-device CPU strategy and the second read returns the identical pair. -/
theorem c7_training_type_plugin_memoized_witness :
    training_type_plugin env0 conn0 = .ok (conn7r, some strat7) ∧
    training_type_plugin env0 conn7r = .ok (conn7r, some strat7) :=
  ⟨rfl, (c7_training_type_plugin_memoized env0 conn0 conn7r (some strat7) rfl).1⟩

/-! ## C9: frame conditions of the back-fill step -/

/-- Field-by-field behaviour of the device back-fill half. -/
theorem backfillDevices_spec (env : Env) (c : Conn) (t t2 : Strategy)
    (h : backfillDevices env c t = .ok t2) :
    t2.kind = t.kind ∧ t2.device = t.device ∧
    t2.cluster_environment = t.cluster_environment ∧
    t2.num_nodes = t.num_nodes ∧ t2.sync_batchnorm = t.sync_batchnorm ∧
    (t.parallel_devices = some none →
      ∃ devs, parallel_devices env c = .ok devs ∧
        t2.parallel_devices = some (some devs) ∧
        (t.num_processes ≠ none → t2.num_processes = some devs.length) ∧
        (t.num_processes = none → t2.num_processes = none)) ∧
    (t.parallel_devices ≠ some none →
      t2.parallel_devices = t.parallel_devices ∧ t2.num_processes = t.num_processes) := by
  unfold backfillDevices at h
  by_cases hpd : t.parallel_devices = some none
  · rw [if_pos hpd] at h
    rcases hdev : parallel_devices env c with e | devs
    · rw [hdev] at h
      exact absurd h (by simp)
    · rw [hdev] at h
      simp only [Except.ok.injEq] at h
      subst h
      refine ⟨?_, ?_, ?_, ?_, ?_, fun _ => ⟨devs, rfl, ?_, ?_, ?_⟩, fun hne => absurd hpd hne⟩ <;>
        by_cases hnp : t.num_processes = none <;> simp [hnp]
  · rw [if_neg hpd] at h
    simp only [Except.ok.injEq] at h
    subst h
    exact ⟨rfl, rfl, rfl, rfl, rfl, fun hc => absurd hc hpd, fun _ => ⟨rfl, rfl⟩⟩

/-- Field-by-field behaviour of the cluster/node/sync back-fill half. -/
theorem backfillRest_spec (env : Env) (c : Conn) (t : Strategy) :
    (backfillRest env c t).kind = t.kind ∧
    (backfillRest env c t).device = t.device ∧
    (backfillRest env c t).parallel_devices = t.parallel_devices ∧
    (backfillRest env c t).num_processes = t.num_processes ∧
    (t.cluster_environment = some none →
      (backfillRest env c t).cluster_environment
        = some (some (select_cluster_environment env c))) ∧
    (t.cluster_environment ≠ some none →
      (backfillRest env c t).cluster_environment = t.cluster_environment) ∧
    (t.num_nodes ≠ none → (backfillRest env c t).num_nodes = some c.num_nodes) ∧
    (t.num_nodes = none → (backfillRest env c t).num_nodes = none) ∧
    (t.sync_batchnorm ≠ none → (backfillRest env c t).sync_batchnorm = some c.sync_batchnorm) ∧
    (t.sync_batchnorm = none → (backfillRest env c t).sync_batchnorm = none) := by
  unfold backfillRest
  by_cases hce : t.cluster_environment = some none <;>
    by_cases hnn : t.num_nodes = none <;>
      by_cases hsb : t.sync_batchnorm = none <;>
        simp [hce, hnn, hsb]

/-- C9: `resolve_training_type_plugin` mutates a strategy only as follows —
the device list is filled (and, when exposed, the process count set to its
length) only when the device list was unset; the cluster environment is filled
only when unset; exposed node-count and batch-norm-sync fields are always
overwritten from the trainer settings; kind, device and exposure structure are
untouched. -/
theorem c9_backfill_frame (env : Env) (c : Conn) (t t' : Strategy)
    (h : resolve_training_type_plugin env c t = .ok t') :
    t'.kind = t.kind ∧ t'.device = t.device ∧
    (t.parallel_devices = some none →
      ∃ devs, parallel_devices env c = .ok devs ∧
        t'.parallel_devices = some (some devs) ∧
        (t.num_processes ≠ none → t'.num_processes = some devs.length) ∧
        (t.num_processes = none → t'.num_processes = none)) ∧
    (t.parallel_devices ≠ some none →
      t'.parallel_devices = t.parallel_devices ∧ t'.num_processes = t.num_processes) ∧
    (t.cluster_environment = some none →
      t'.cluster_environment = some (some (select_cluster_environment env c))) ∧
    (t.cluster_environment ≠ some none → t'.cluster_environment = t.cluster_environment) ∧
    (t.num_nodes ≠ none → t'.num_nodes = some c.num_nodes) ∧
    (t.num_nodes = none → t'.num_nodes = none) ∧
    (t.sync_batchnorm ≠ none → t'.sync_batchnorm = some c.sync_batchnorm) ∧
    (t.sync_batchnorm = none → t'.sync_batchnorm = none) := by
  unfold resolve_training_type_plugin at h
  split at h
  next e heq => exact absurd h (by simp)
  next t2 heq =>
    simp only [Except.ok.injEq] at h
    subst h
    obtain ⟨bk, bd, bce, bnn, bsb, bpos, bneg⟩ := backfillDevices_spec env c t t2 heq
    obtain ⟨rk, rd, rpd, rnp, rcepos, rceneg, rnnpos, rnnneg, rsbpos, rsbneg⟩ :=
      backfillRest_spec env c t2
    refine ⟨rk.trans bk, rd.trans bd, ?_, ?_, ?_, ?_, ?_, ?_, ?_, ?_⟩
    · intro hpd
      obtain ⟨devs, hdev, hp2, hnp1, hnp0⟩ := bpos hpd
      exact ⟨devs, hdev, rpd.trans hp2,
        fun hne => rnp.trans (hnp1 hne), fun he => rnp.trans (hnp0 he)⟩
    · intro hpd
      obtain ⟨hp2, hnp⟩ := bneg hpd
      exact ⟨rpd.trans hp2, rnp.trans hnp⟩
    · intro hce
      exact rcepos (bce.trans hce)
    · intro hce
      exact (rceneg (by rw [bce]; exact hce)).trans bce
    · intro hnn
      exact rnnpos (by rw [bnn]; exact hnn)
    · intro hnn
      exact rnnneg (by rw [bnn]; exact hnn)
    · intro hsb
      exact rsbpos (by rw [bsb]; exact hsb)
    · intro hsb
      exact rsbneg (by rw [bsb]; exact hsb)

/-- C9 witness: the back-fill of `strat9` on the default configuration
succeeds, overwrites the stale node count from the trainer setting, and leaves
the kind untouched. -/
theorem c9_backfill_frame_witness :
    resolve_training_type_plugin env0 conn0 strat9 = .ok strat9r ∧
    strat9r.num_nodes = some conn0.num_nodes ∧ strat9r.kind = strat9.kind :=
  ⟨rfl,
   (c9_backfill_frame env0 conn0 strat9 strat9r rfl).2.2.2.2.2.2.1 (by decide),
   (c9_backfill_frame env0 conn0 strat9 strat9r rfl).1⟩

/-! ## C5: SLURM scheduler-managed detection -/

/-- C5 counterexample: with two GPUs requested and node count 0 the task-count
variable `"0"` parses to exactly requested GPU count × node count and the job
name is not "bash", so the claim predicts scheduler-managed = true — but the
code switches to the process-count comparison whenever the product is zero
(not only when zero GPUs are requested) and yields false. -/
theorem c5_slurm_counterexample :
    use_ddp conn5x = true ∧ env5x.fake_slurm = none ∧
    env5x.slurm_ntasks = some "0" ∧
    pyInt "0" = some ((num_gpus conn5x * conn5x.num_nodes : Nat) : Int) ∧
    env5x.slurm_job_name = some "train" ∧ "train" ≠ "bash" ∧
    (configure_slurm_ddp env5x conn5x).is_slurm_managing_tasks = false := by
  decide

/-- C5 amended: for DDP/DDP2 kinds with no fake override, scheduler-managed
detection returns true exactly when the task-count variable parses to an
integer equal to requested GPU count × node count — except that whenever that
product is zero (in particular when zero GPUs are requested) the comparison is
against the requested process count instead — and the job name variable is
present and not "bash"; any missing or malformed variable yields false. -/
theorem c5_slurm_detection (env : Env) (c : Conn)
    (hd : use_ddp c = true ∨ use_ddp2 c = true)
    (hf : env.fake_slurm = none) :
    (configure_slurm_ddp env c).is_slurm_managing_tasks = true ↔
      ∃ s n j, env.slurm_ntasks = some s ∧ pyInt s = some n ∧
        env.slurm_job_name = some j ∧ j ≠ "bash" ∧
        (if num_gpus c * c.num_nodes = 0
         then ∃ p, c.num_processes = some p ∧ n = (p : Int)
         else n = ((num_gpus c * c.num_nodes : Nat) : Int)) := by
  unfold configure_slurm_ddp
  rw [hf, if_pos hd]
  show slurmFlag env c = true ↔ _
  unfold slurmFlag
  rcases hnt : env.slurm_ntasks with _ | s
  · simp
  · rcases hpi : pyInt s with _ | n
    · simp [hpi]
    · rcases hjn : env.slurm_job_name with _ | j
      · simp [hpi]
      · by_cases hb : j = "bash"
        · subst hb
          simp [hpi]
        · by_cases hz : num_gpus c * c.num_nodes = 0
          · rcases hp : c.num_processes with _ | p
            · simp [hpi, hz, hb, hp]
            · simp [hpi, hz, hb, hp]
          · simp [hpi, hz, hb]

/-- C5 witness: 4 tasks = 2 GPUs × 2 nodes with a non-"bash" job name means
the scheduler manages the job. -/
theorem c5_slurm_detection_witness :
    (configure_slurm_ddp env5w conn5w).is_slurm_managing_tasks = true :=
  (c5_slurm_detection env5w conn5w (Or.inl rfl) rfl).mpr
    ⟨"4", 4, "job", rfl, by decide, rfl, by decide, by decide⟩

/-! ## C6: the "ddp_cpu" special case -/

/-- Behaviour of the special-case chain on a `"ddp_cpu"` backend. -/
theorem sdm_special_ddp_cpu (env : Env) (c : Conn)
    (hb : c.distributed_backend = some (.str "ddp_cpu")) :
    ∃ c2 w2, sdm_special env c = .ok (c2, w2) ∧
      c2._distrib_type = some .DDP_SPAWN ∧
      c2._device_type = c._device_type ∧
      c2.distributed_backend = c.distributed_backend ∧
      c2.num_nodes = c.num_nodes ∧
      num_gpus c2 = 0 ∧
      (0 < num_gpus c → w2 = [Warning.ddpCpuGpusUnused]) ∧
      (¬ 0 < num_gpus c → w2 = []) ∧
      (c.num_processes = none → c2.num_processes = some env.cpu_count) ∧
      (c.num_processes ≠ none → c2.num_processes = c.num_processes) := by
  unfold sdm_special
  rw [if_pos hb]
  dsimp only
  rw [show num_gpus {c with _distrib_type := some DistributedType.DDP_SPAWN} = num_gpus c
    from rfl]
  by_cases hg : 0 < num_gpus c
  · rw [if_pos hg]
    dsimp only
    by_cases hp : c.num_processes = none
    · rw [if_pos hp]
      exact ⟨_, _, rfl, rfl, rfl, rfl, rfl, rfl, fun _ => rfl, fun h => absurd hg h,
        fun _ => rfl, fun h => absurd hp h⟩
    · rw [if_neg hp]
      exact ⟨_, _, rfl, rfl, rfl, rfl, rfl, rfl, fun _ => rfl, fun h => absurd hg h,
        fun h => absurd h hp, fun _ => rfl⟩
  · rw [if_neg hg]
    dsimp only
    by_cases hp : c.num_processes = none
    · rw [if_pos hp]
      exact ⟨_, _, rfl, rfl, rfl, rfl, rfl, Nat.eq_zero_of_not_pos hg, fun h => absurd h hg,
        fun _ => rfl, fun _ => rfl, fun h => absurd hp h⟩
    · rw [if_neg hp]
      exact ⟨_, _, rfl, rfl, rfl, rfl, rfl, Nat.eq_zero_of_not_pos hg, fun h => absurd h hg,
        fun _ => rfl, fun h => absurd h hp, fun _ => rfl⟩

/-- C6: with backend name `"ddp_cpu"` (and resolution actually running: no
registry string among the plugin hints, a non-interactive host, the initial
CPU device kind), `set_distributed_mode` succeeds with kind DDP-spawn and a
non-GPU device kind even when GPUs are visible (warning emitted in that case),
and the process count is defaulted to the host logical CPU count exactly when
it was unset. -/
theorem c6_ddp_cpu (env : Env) (c : Conn)
    (hb : c.distributed_backend = some (.str "ddp_cpu"))
    (hplug : is_training_type_in_plugins env c = false)
    (hint : env.is_interactive = false)
    (hdev : c._device_type = DeviceType.CPU) :
    ∃ c' ws, set_distributed_mode env none c = .ok (c', ws) ∧
      c'._distrib_type = some .DDP_SPAWN ∧
      c'._device_type ≠ .GPU ∧
      (0 < num_gpus c → Warning.ddpCpuGpusUnused ∈ ws) ∧
      (c.num_processes = none → c'.num_processes = some env.cpu_count) ∧
      (c.num_processes ≠ none → c'.num_processes = c.num_processes) := by
  have hinf : sdm_infer env c = .ok (c, []) := by
    unfold sdm_infer
    rw [if_pos (by rw [hb]; simp)]
  obtain ⟨c2, w2, hspec, h1, h2, h3, h4, h5, h6, h7, h8, h9⟩ := sdm_special_ddp_cpu env c hb
  have honcpu : backendMentionsCpu c2 = true := by
    unfold backendMentionsCpu
    rw [h3, hb]
    decide
  have hc2dev : c2._device_type = DeviceType.CPU := h2.trans hdev
  have hhor : ¬ (c2.distributed_backend = some (.str "horovod")) := by
    rw [h3, hb]
    decide
  have hpre : sdm_pre env c = .ok (c2, [] ++ w2 ++ []) := by
    unfold sdm_pre
    simp only [hinf, hspec, honcpu]
    simp [gpuGuard, sdm_promote, sdm_backfill_np, sdm_horovod_step, interactiveCheck,
      honcpu, hint, hc2dev, h1, hhor, gpuDistrib]
  have huse : use_ddp c2 = true := by
    simp [use_ddp, h1]
  unfold set_distributed_mode
  rw [if_neg (by simp [hplug])]
  have hmerge : mergeArg env none c = c := rfl
  rw [hmerge]
  rw [if_neg (show ¬ isAccelBackend c = true by unfold isAccelBackend; rw [hb]; simp)]
  simp only [hpre]
  rw [if_neg (by simp [huse])]
  refine ⟨c2, _, rfl, h1, by rw [hc2dev]; simp, fun hg => by simp [h6 hg],
    fun hpn => h8 hpn, fun hpn => h9 hpn⟩

/-- C6 witness: the `"ddp_cpu"` theorem applies to the concrete two-GPU
configuration. -/
theorem c6_ddp_cpu_witness :
    ∃ c' ws, set_distributed_mode env0 none conn6 = .ok (c', ws) ∧
      c'._distrib_type = some .DDP_SPAWN ∧
      c'._device_type ≠ .GPU ∧
      (0 < num_gpus conn6 → Warning.ddpCpuGpusUnused ∈ ws) ∧
      (conn6.num_processes = none → c'.num_processes = some env0.cpu_count) ∧
      (conn6.num_processes ≠ none → c'.num_processes = conn6.num_processes) :=
  c6_ddp_cpu env0 conn6 rfl rfl rfl rfl

/-! ## C4: precision 16 with the native backend -/

/-- C4: for requested precision 16 with the native AMP backend (outside the
IPU and DeepSpeed short-circuits and off TPU): on a CPU device selection
always fails fatally; on a GPU device with native AMP available it returns the
sharded native-half plugin when the resolved strategy is sharded, the
fully-sharded native-half plugin when it is fully-sharded, and the plain
native-half plugin otherwise. -/
theorem c4_native_half_precision (env : Env) (c : Conn)
    (hipu : c.ipus = none)
    (hds : c._distrib_type ≠ some .DEEPSPEED)
    (hdsp : isDeepSpeedPlugin c._training_type_plugin = false)
    (hp : c.precision = 16)
    (htpu : c.tpu_cores = none)
    (hamp : c.amp_type = some "native") :
    (c._device_type = .CPU → select_precision_plugin env c = .error .nativeAmpOnCPU) ∧
    (∀ t, c._device_type = .GPU → env.native_amp_available = true →
      c._training_type_plugin_resolved = true → c._training_type_plugin = some t →
      select_precision_plugin env c =
        .ok (c,
          (if t.kind = .DDPShardedK ∨ t.kind = .DDPSpawnShardedK then .shardedNativeMixed
           else if t.kind = .DDPFullyShardedK then .fullyShardedNativeMixed
           else .nativeMixed), [])) := by
  constructor
  · intro hcpu
    simp [select_precision_plugin, on_ipu, hipu, on_tpu, htpu, hds, hdsp, hp, hamp,
      AMPType.from_str, on_cpu, hcpu]
  · intro t hgpu hnat hres http
    have hdst : isDeepSpeedPlugin (some t) = false := http ▸ hdsp
    by_cases hsh : t.kind = StrategyKind.DDPShardedK ∨ t.kind = StrategyKind.DDPSpawnShardedK
    · simp [select_precision_plugin, on_ipu, hipu, on_tpu, htpu, hds, hdsp, hdst, hp, hamp,
        AMPType.from_str, on_cpu, hgpu, hnat, isShardedTT, training_type_plugin, hres, http, hsh]
    · by_cases hfsh : t.kind = StrategyKind.DDPFullyShardedK
      · simp [select_precision_plugin, on_ipu, hipu, on_tpu, htpu, hds, hdsp, hdst, hp, hamp,
          AMPType.from_str, on_cpu, hgpu, hnat, isShardedTT, isFullyShardedTT,
          training_type_plugin, hres, http, hsh, hfsh]
      · simp [select_precision_plugin, on_ipu, hipu, on_tpu, htpu, hds, hdsp, hdst, hp, hamp,
          AMPType.from_str, on_cpu, hgpu, hnat, isShardedTT, isFullyShardedTT,
          training_type_plugin, hres, http, hsh, hfsh]

/-- C4 witness: on the concrete sharded-strategy GPU configuration the
selector returns the sharded native-half plugin; on its CPU twin it fails. -/
theorem c4_native_half_precision_witness :
    select_precision_plugin env0 conn4 = .ok (conn4, .shardedNativeMixed, []) ∧
    select_precision_plugin env0 {conn4 with _device_type := .CPU}
      = .error .nativeAmpOnCPU := by
  constructor
  · have h := (c4_native_half_precision env0 conn4 rfl (by decide) rfl rfl rfl rfl).2
      (mkDDPFamily .DDPShardedK [Device.cuda 0] none) rfl rfl rfl rfl
    simpa using h
  · exact (c4_native_half_precision env0 {conn4 with _device_type := .CPU}
      rfl (by decide) rfl rfl rfl rfl).1 rfl

/-! ## C1: the multi-node validation -/

/-- `_set_horovod_backend` never changes the node count. -/
theorem set_horovod_backend_num_nodes (env : Env) (c c' : Conn)
    (h : set_horovod_backend env c = .ok c') : c'.num_nodes = c.num_nodes := by
  unfold set_horovod_backend at h
  split at h
  next => exact absurd h (by simp)
  next =>
    split at h
    next => exact absurd h (by simp)
    next =>
      dsimp only at h
      split at h <;>
        (simp only [Except.ok.injEq] at h; subst h; rfl)

/-- The backend-unset inference block never changes the node count. -/
theorem sdm_infer_num_nodes (env : Env) (c c' : Conn) (w : List Warning)
    (h : sdm_infer env c = .ok (c', w)) : c'.num_nodes = c.num_nodes := by
  unfold sdm_infer at h
  repeat' split at h
  all_goals try (exact Except.noConfusion h)
  all_goals try (injection h with hinj; injection hinj with hc hw; subst hc; rfl)
  rcases hh : set_horovod_backend env c with e | ch <;> rw [hh] at h
  · exact Except.noConfusion h
  · injection h with hinj
    injection hinj with hc hw
    subst hc
    exact set_horovod_backend_num_nodes env c ch hh

/-- The special-case chain never changes the node count. -/
theorem sdm_special_num_nodes (env : Env) (c c' : Conn) (w : List Warning)
    (h : sdm_special env c = .ok (c', w)) : c'.num_nodes = c.num_nodes := by
  unfold sdm_special at h
  dsimp only at h
  repeat' split at h
  all_goals try (exact Except.noConfusion h)
  all_goals (injection h with hinj; injection hinj with hc hw; subst hc; rfl)

/-- The GPU-availability guard never changes the node count. -/
theorem gpuGuard_num_nodes (c : Conn) (b : Bool) :
    (gpuGuard c b).1.num_nodes = c.num_nodes := by
  unfold gpuGuard
  split
  · split <;> rfl
  · rfl

/-- The device-kind promotion never changes the node count. -/
theorem sdm_promote_num_nodes (c : Conn) : (sdm_promote c).num_nodes = c.num_nodes := by
  unfold sdm_promote
  split <;> rfl

/-- The process-count back-fill never changes the node count. -/
theorem sdm_backfill_np_num_nodes (c : Conn) : (sdm_backfill_np c).num_nodes = c.num_nodes := by
  unfold sdm_backfill_np
  dsimp only
  split <;> split <;> rfl

/-- The explicit-horovod step never changes the node count. -/
theorem sdm_horovod_step_num_nodes (env : Env) (c c' : Conn)
    (h : sdm_horovod_step env c = .ok c') : c'.num_nodes = c.num_nodes := by
  unfold sdm_horovod_step at h
  split at h
  · exact set_horovod_backend_num_nodes env c c' h
  · injection h with h1
    subst h1
    rfl

/-- `sdm_pre` never changes the node count. -/
theorem sdm_pre_num_nodes (env : Env) (c c' : Conn) (w : List Warning)
    (h : sdm_pre env c = .ok (c', w)) : c'.num_nodes = c.num_nodes := by
  unfold sdm_pre at h
  dsimp only at h
  split at h
  next heq => exact Except.noConfusion h
  next c1 w1 heq =>
    split at h
    next heq2 => exact Except.noConfusion h
    next c2 w2 heq2 =>
      split at h
      next heq3 => exact Except.noConfusion h
      next u heq3 =>
        split at h
        next heq4 => exact Except.noConfusion h
        next c6 heq4 =>
          injection h with hinj
          injection hinj with hc hw
          subst hc
          rw [sdm_horovod_step_num_nodes env _ c6 heq4, sdm_backfill_np_num_nodes,
            gpuGuard_num_nodes, sdm_promote_num_nodes,
            sdm_special_num_nodes env c1 c2 w2 heq2, sdm_infer_num_nodes env c c1 w1 heq]

/-- C1 counterexample: a two-node request with backend `"ddp_sharded"`
resolves without any error to the DDP-sharded kind, which is neither DDP nor
DDP2 — so a multi-node request can succeed with a final kind outside
{DDP, DDP2}, contrary to the claim. -/
theorem c1_multi_node_counterexample :
    conn1x.num_nodes = 2 ∧
    (set_distributed_mode env0 none conn1x).toOption.map (fun p => p.1._distrib_type)
      = some (some .DDP_SHARDED) ∧
    some DistributedType.DDP_SHARDED ≠ some DistributedType.DDP ∧
    some DistributedType.DDP_SHARDED ≠ some DistributedType.DDP2 := by
  decide

/-- C1 amended: when mode resolution actually runs (the call is not deferred
to a registry-string hint and the backend is not a custom accelerator object),
a request with node count > 1 succeeds only when the final kind is in the DDP
family — DDP, DDP-spawn, DDP-sharded, DDP-sharded-spawn, DDP-fully-sharded,
DeepSpeed, TPU-spawn — or is DDP2; any other final kind raises the fatal
multi-node configuration error. -/
theorem c1_multi_node_validation (env : Env) (arg : Option String) (c c' : Conn)
    (ws : List Warning)
    (hn : 1 < c.num_nodes)
    (hplug : arg = none → is_training_type_in_plugins env c = false)
    (hacc : arg = none → isAccelBackend c = false)
    (hok : set_distributed_mode env arg c = .ok (c', ws)) :
    use_ddp c' = true ∨ use_ddp2 c' = true := by
  unfold set_distributed_mode at hok
  rw [if_neg (by rintro ⟨ha, htp⟩; rw [hplug ha] at htp; exact absurd htp (by simp))] at hok
  have haccm : isAccelBackend (mergeArg env arg c) = false := by
    rcases arg with _ | s
    · exact hacc rfl
    · unfold mergeArg isAccelBackend
      dsimp only
      rcases registryLookup env s with _ | e <;> rfl
  rw [if_neg (by rw [haccm]; simp)] at hok
  split at hok
  next heq => exact absurd hok (by simp)
  next cp wp heq =>
    have hnn : cp.num_nodes = (mergeArg env arg c).num_nodes :=
      sdm_pre_num_nodes env _ cp wp heq
    have hmerge : (mergeArg env arg c).num_nodes = c.num_nodes := by
      unfold mergeArg
      rcases arg with _ | s
      · rfl
      · dsimp only
        rcases registryLookup env s with _ | e <;> rfl
    split at hok
    next => exact absurd hok (by simp)
    next hcond =>
      simp only [Except.ok.injEq, Prod.mk.injEq] at hok
      obtain ⟨h1, _⟩ := hok
      subst h1
      by_cases hu : use_ddp cp = true
      · exact Or.inl hu
      · by_cases hu2 : use_ddp2 cp = true
        · exact Or.inr hu2
        · exact absurd ⟨by rw [hnn, hmerge]; exact hn,
            by simpa using hu, by simpa using hu2⟩ hcond

/-- C1 witness for the amended theorem: the counterexample fixture itself —
two nodes with `"ddp_sharded"` resolves successfully, and the amended theorem
places its final kind inside the allowed DDP family. -/
theorem c1_multi_node_validation_witness :
    ∃ c' ws, set_distributed_mode env0 none conn1x = .ok (c', ws) ∧
      (use_ddp c' = true ∨ use_ddp2 c' = true) := by
  obtain ⟨p, hok⟩ : ∃ p, set_distributed_mode env0 none conn1x = .ok p := ⟨_, rfl⟩
  exact ⟨p.1, p.2, by rw [← hok],
    c1_multi_node_validation env0 none conn1x p.1 p.2 (by decide) (fun _ => rfl)
      (fun _ => rfl) (by rw [hok])⟩

/-! ## C3: plugin classification conflicts -/

/-- A second sighting of an already-filled category makes the step raise. -/
theorem step_error_of_filled (env : Env) (h : PluginHint) (a : PAcc) (cat : HintCat)
    (hc : hintCategory env h = some cat) (hf : catFilled cat a = true) :
    ∃ e, handle_plugin_step env h a = .error e := by
  cases h with
  | str s =>
    simp only [hintCategory] at hc
    rcases hr : registryLookup env s with _ | e
    · rw [hr] at hc
      simp [hintCategory] at hc
    · rw [hr] at hc
      simp [hintCategory] at hc
      subst hc
      unfold catFilled at hf
      rcases ht : a.training with _ | t
      · rw [ht] at hf
        simp at hf
      · exact ⟨_, by simp only [handle_plugin_step]; rw [hr, ht]⟩
  | training t =>
    simp only [hintCategory] at hc
    simp [hintCategory] at hc
    subst hc
    unfold catFilled at hf
    rcases ht : a.training with _ | t0
    · rw [ht] at hf
      simp at hf
    · exact ⟨_, by simp only [handle_plugin_step]; rw [ht]⟩
  | precision p =>
    simp only [hintCategory] at hc
    simp [hintCategory] at hc
    subst hc
    unfold catFilled at hf
    rcases ht : a.precision with _ | p0
    · rw [ht] at hf
      simp at hf
    · exact ⟨_, by simp only [handle_plugin_step]; rw [ht]⟩
  | clusterEnv ce =>
    simp only [hintCategory] at hc
    simp [hintCategory] at hc
    subst hc
    unfold catFilled at hf
    rcases ht : a.cenv with _ | e0
    · rw [ht] at hf
      simp at hf
    · exact ⟨_, by simp only [handle_plugin_step]; rw [ht]⟩
  | invalid id =>
    simp only [hintCategory] at hc
    simp [hintCategory] at hc

/-- A successful step on a categorized hint leaves that category filled. -/
theorem step_fills (env : Env) (h : PluginHint) (a a' : PAcc) (cat : HintCat)
    (hc : hintCategory env h = some cat) (hs : handle_plugin_step env h a = .ok a') :
    catFilled cat a' = true := by
  cases h with
  | str s =>
    simp only [hintCategory] at hc
    rcases hr : registryLookup env s with _ | e
    · rw [hr] at hc
      simp [hintCategory] at hc
    · rw [hr] at hc
      simp [hintCategory] at hc
      subst hc
      simp only [handle_plugin_step] at hs
      rw [hr] at hs
      rcases ht : a.training with _ | t
      · rw [ht] at hs
        rcases hm : set_distributed_mode env (some s) {a.conn with _distrib_type := none}
            with e2 | p
        · rw [hm] at hs
          exact Except.noConfusion hs
        · rw [hm] at hs
          injection hs with h1
          subst h1
          rfl
      · rw [ht] at hs
        exact Except.noConfusion hs
  | training t =>
    simp [hintCategory] at hc
    subst hc
    simp only [handle_plugin_step] at hs
    rcases ht : a.training with _ | t0
    · rw [ht] at hs
      injection hs with h1
      subst h1
      rfl
    · rw [ht] at hs
      exact Except.noConfusion hs
  | precision p =>
    simp [hintCategory] at hc
    subst hc
    simp only [handle_plugin_step] at hs
    rcases ht : a.precision with _ | p0
    · rw [ht] at hs
      injection hs with h1
      subst h1
      rfl
    · rw [ht] at hs
      exact Except.noConfusion hs
  | clusterEnv ce =>
    simp [hintCategory] at hc
    subst hc
    simp only [handle_plugin_step] at hs
    rcases ht : a.cenv with _ | e0
    · rw [ht] at hs
      injection hs with h1
      subst h1
      rfl
    · rw [ht] at hs
      exact Except.noConfusion hs
  | invalid id =>
    simp [hintCategory] at hc

/-- A successful step never unfills a category. -/
theorem step_preserves_filled (env : Env) (h : PluginHint) (a a' : PAcc) (cat : HintCat)
    (hs : handle_plugin_step env h a = .ok a') (hf : catFilled cat a = true) :
    catFilled cat a' = true := by
  cases h with
  | str s =>
    simp only [handle_plugin_step] at hs
    rcases hr : registryLookup env s with _ | e <;> rw [hr] at hs
    · rcases hm : set_distributed_mode env (some s) {a.conn with _distrib_type := none}
          with e2 | p <;> rw [hm] at hs
      · exact Except.noConfusion hs
      · injection hs with h1
        subst h1
        cases cat <;> simpa using hf
    · rcases ht : a.training with _ | t <;> rw [ht] at hs
      · rcases hm : set_distributed_mode env (some s) {a.conn with _distrib_type := none}
            with e2 | p <;> rw [hm] at hs
        · exact Except.noConfusion hs
        · injection hs with h1
          subst h1
          cases cat <;> simp_all [catFilled]
      · exact Except.noConfusion hs
  | training t =>
    simp only [handle_plugin_step] at hs
    rcases ht : a.training with _ | t0 <;> rw [ht] at hs
    · injection hs with h1
      subst h1
      cases cat <;> simp_all [catFilled]
    · exact Except.noConfusion hs
  | precision p =>
    simp only [handle_plugin_step] at hs
    rcases ht : a.precision with _ | p0 <;> rw [ht] at hs
    · injection hs with h1
      subst h1
      cases cat <;> simp_all [catFilled]
    · exact Except.noConfusion hs
  | clusterEnv ce =>
    simp only [handle_plugin_step] at hs
    rcases ht : a.cenv with _ | e0 <;> rw [ht] at hs
    · injection hs with h1
      subst h1
      cases cat <;> simp_all [catFilled]
    · exact Except.noConfusion hs
  | invalid id =>
    exact Except.noConfusion hs

/-- A fresh object hint steps successfully and touches only its own category. -/
theorem step_ok_of_fresh (env : Env) (h : PluginHint) (a : PAcc) (cat : HintCat)
    (hobj : isObjHint h = true) (hc : hintCategory env h = some cat)
    (hnf : catFilled cat a = false) :
    ∃ a', handle_plugin_step env h a = .ok a' ∧
      ∀ c', c' ≠ cat → catFilled c' a' = catFilled c' a := by
  cases h with
  | str s => exact absurd hobj (by simp [isObjHint])
  | training t =>
    simp [hintCategory] at hc
    subst hc
    unfold catFilled at hnf
    rcases ht : a.training with _ | t0
    · refine ⟨_, by simp only [handle_plugin_step]; rw [ht], ?_⟩
      intro c' hne
      cases c' <;> simp_all [catFilled]
    · rw [ht] at hnf
      simp at hnf
  | precision p =>
    simp [hintCategory] at hc
    subst hc
    unfold catFilled at hnf
    rcases ht : a.precision with _ | p0
    · refine ⟨_, by simp only [handle_plugin_step]; rw [ht], ?_⟩
      intro c' hne
      cases c' <;> simp_all [catFilled]
    · rw [ht] at hnf
      simp at hnf
  | clusterEnv ce =>
    simp [hintCategory] at hc
    subst hc
    unfold catFilled at hnf
    rcases ht : a.cenv with _ | e0
    · refine ⟨_, by simp only [handle_plugin_step]; rw [ht], ?_⟩
      intro c' hne
      cases c' <;> simp_all [catFilled]
    · rw [ht] at hnf
      simp at hnf
  | invalid id => exact absurd hobj (by simp [isObjHint])

/-- The classification loop distributes over list concatenation. -/
theorem loop_append (env : Env) (l1 l2 : List PluginHint) (a : PAcc) :
    handle_plugins_loop env (l1 ++ l2) a =
      match handle_plugins_loop env l1 a with
      | .error e => .error e
      | .ok a' => handle_plugins_loop env l2 a' := by
  induction l1 generalizing a with
  | nil => rfl
  | cons h t ih =>
    simp only [List.cons_append, handle_plugins_loop]
    rcases hs : handle_plugin_step env h a with e | a1
    · rfl
    · exact ih a1

/-- A successful loop preserves filled categories. -/
theorem loop_preserves_filled (env : Env) (l : List PluginHint) (a a' : PAcc) (cat : HintCat)
    (hl : handle_plugins_loop env l a = .ok a') (hf : catFilled cat a = true) :
    catFilled cat a' = true := by
  induction l generalizing a with
  | nil =>
    injection hl with h1
    subst h1
    exact hf
  | cons h t ih =>
    simp only [handle_plugins_loop] at hl
    rcases hs : handle_plugin_step env h a with e | a1 <;> rw [hs] at hl
    · exact Except.noConfusion hl
    · exact ih a1 hl (step_preserves_filled env h a a1 cat hs hf)

/-- With its category already filled, a list containing a hint of that
category always makes the loop raise. -/
theorem loop_error_of_filled_mem (env : Env) (l : List PluginHint) (a : PAcc) (cat : HintCat)
    (h : PluginHint) (hmem : h ∈ l) (hc : hintCategory env h = some cat)
    (hf : catFilled cat a = true) :
    ∃ e, handle_plugins_loop env l a = .error e := by
  induction l generalizing a with
  | nil => simp at hmem
  | cons hd tl ih =>
    rcases List.mem_cons.mp hmem with heq | htl
    · subst heq
      obtain ⟨e, he⟩ := step_error_of_filled env h a cat hc hf
      exact ⟨e, by simp only [handle_plugins_loop]; rw [he]⟩
    · rcases hs : handle_plugin_step env hd a with e | a1
      · exact ⟨e, by simp only [handle_plugins_loop]; rw [hs]⟩
      · obtain ⟨e, he⟩ := ih a1 htl (step_preserves_filled env hd a a1 cat hs hf)
        exact ⟨e, by simp only [handle_plugins_loop]; rw [hs]; exact he⟩

/-- Over fresh categories, a pairwise-distinct list of recognized object hints
classifies successfully. -/
theorem loop_ok_of_fresh (env : Env) (l : List PluginHint) (a : PAcc)
    (hobj : ∀ h ∈ l, isObjHint h = true)
    (hpw : l.Pairwise (fun x y => hintCategory env x ≠ hintCategory env y))
    (hnf : ∀ h ∈ l, ∀ cat, hintCategory env h = some cat → catFilled cat a = false) :
    ∃ a', handle_plugins_loop env l a = .ok a' := by
  induction l generalizing a with
  | nil => exact ⟨a, rfl⟩
  | cons hd tl ih =>
    have hdobj : isObjHint hd = true := hobj hd (by simp)
    obtain ⟨cat, hcat⟩ : ∃ cat, hintCategory env hd = some cat := by
      cases hd <;> simp_all [isObjHint, hintCategory]
    obtain ⟨a1, hs, hframe⟩ := step_ok_of_fresh env hd a cat hdobj hcat
      (hnf hd (by simp) cat hcat)
    rcases List.pairwise_cons.mp hpw with ⟨hhd, htlpw⟩
    obtain ⟨a2, hl⟩ := ih a1 (fun h hm => hobj h (List.mem_cons_of_mem hd hm)) htlpw
      (fun h hm cat' hc' => by
        have hne : cat' ≠ cat := by
          intro hcc
          subst hcc
          exact hhd h hm (hcat.trans hc'.symm)
        rw [hframe cat' hne]
        exact hnf h (List.mem_cons_of_mem hd hm) cat' hc')
    exact ⟨a2, by simp only [handle_plugins_loop]; rw [hs]; exact hl⟩

/-- C3 amended: supplying two hints of the same category, in any order and any
surrounding context, always makes classification raise (the conflict error
names the duplicate strategy or precision hint but not the first sighting, and
names neither hint for a cluster-environment conflict; an earlier failing hint
can raise a different fatal error first); and a list of recognized object
hints with at most one hint per category always classifies successfully, with
at most one surviving override per category. -/
theorem c3_plugin_classification :
    (∀ (env : Env) (c : Conn) (l1 l2 l3 : List PluginHint) (h1 h2 : PluginHint)
       (cat : HintCat),
      hintCategory env h1 = some cat → hintCategory env h2 = some cat →
      c.plugins = l1 ++ h1 :: (l2 ++ h2 :: l3) →
      ∃ e, handle_given_plugins env c = .error e) ∧
    (∀ (env : Env) (c : Conn),
      (∀ h ∈ c.plugins, isObjHint h = true) →
      c.plugins.Pairwise (fun x y => hintCategory env x ≠ hintCategory env y) →
      ∃ r, handle_given_plugins env c = .ok r) := by
  constructor
  · intro env c l1 l2 l3 h1 h2 cat hc1 hc2 hpl
    have hloop : ∃ e, handle_plugins_loop env (l1 ++ h1 :: (l2 ++ h2 :: l3))
        ⟨c, none, none, none, []⟩ = .error e := by
      rw [loop_append]
      rcases hL1 : handle_plugins_loop env l1 ⟨c, none, none, none, []⟩ with e | a1
      · exact ⟨e, rfl⟩
      · rcases hs : handle_plugin_step env h1 a1 with e | a2
        · exact ⟨e, by simp only [handle_plugins_loop]; rw [hs]⟩
        · have hfill : catFilled cat a2 = true := step_fills env h1 a1 a2 cat hc1 hs
          obtain ⟨e, he⟩ := loop_error_of_filled_mem env (l2 ++ h2 :: l3) a2 cat h2
            (by simp) hc2 hfill
          exact ⟨e, by simp only [handle_plugins_loop]; rw [hs]; exact he⟩
    obtain ⟨e, he⟩ := hloop
    refine ⟨e, ?_⟩
    unfold handle_given_plugins
    rw [hpl, he]
  · intro env c hobj hpw
    obtain ⟨a', hl⟩ := loop_ok_of_fresh env c.plugins ⟨c, none, none, none, []⟩ hobj hpw
      (fun h hm cat hc => by cases cat <;> rfl)
    exact ⟨_, by unfold handle_given_plugins; rw [hl]⟩

/-- C3 counterexample: two cluster-environment hints raise the fixed-string
conflict error, whose message interpolates no value at all — it names neither
offending hint; and a single unrecognized hint (every category appearing zero
times, hence at most once) still fails classification, so "classification
succeeds when all categories appear at most once" is also false as stated. -/
theorem c3_conflict_counterexample :
    handle_given_plugins env0 conn3x = .error Err.multipleClusterEnv ∧
    errNamedValues Err.multipleClusterEnv = [] ∧
    handle_given_plugins env0 conn3y = .error (Err.invalidPlugin 7) :=
  ⟨rfl, rfl, rfl⟩

/-- C3 witness: two strategy objects raise; one hint per category succeeds. -/
theorem c3_plugin_classification_witness :
    (∃ e, handle_given_plugins env0 conn3a = .error e) ∧
    (∃ r, handle_given_plugins env0 conn3b = .ok r) :=
  ⟨c3_plugin_classification.1 env0 conn3a [] [] []
      (.training (mkSingleDevice .SingleDeviceK .cpu))
      (.training (mkParallel .DataParallelK [] none)) .strat rfl rfl rfl,
   c3_plugin_classification.2 env0 conn3b (by decide) (by decide)⟩

end AccelConn
